import Mathlib

/-!
Shallow embedding of the Gastro-Galaxy backend (Go): the data-access layer
in `internal/database/database.go` and the HTTP handler layer in
`internal/server/routes.go`, over an explicit relational store state.

SQL effects are modelled by explicit state passing on a `Db` record.
Per-statement success or failure of the store (constraint violations,
connection faults) is modelled by boolean failure oracles passed to the
operations; a read query over the store's own rows is modelled as
succeeding (its error branches in the source only propagate store faults
unchanged).
-/

set_option autoImplicit false

namespace GastroGalaxy

/-- models.Recipe: id, name, description, long_description, imageurl, category_id. -/
structure Recipe where
  id : Int
  name : String
  description : String
  longDescription : String
  url : String
  categoryId : Int
deriving Repr, DecidableEq

/-- models.Ingedient (sic, the source's spelling): id, name, amount, imageurl, isavailable. -/
structure Ingedient where
  id : Int
  name : String
  amount : String
  url : String
  isAvailable : Bool
deriving Repr, DecidableEq

/-- A row of the external `category(id PK, name)` relation. -/
structure Category where
  id : Int
  name : String
deriving Repr, DecidableEq

/-- models.RecipeWithIngredientsDto: a recipe paired with its joined ingredients. -/
structure RecipeWithIngredientsDto where
  recipe : Recipe
  ingredients : List Ingedient
deriving Repr, DecidableEq

/-- models.RecipeInputDto: creation fields plus ingredient ids (field name
`IngedientIds` in the source). -/
structure RecipeInputDto where
  name : String
  url : String
  categoryId : Int
  description : String
  longDescription : String
  ingedientIds : List Int
deriving Repr, DecidableEq

/-- The zero value a Go `var recipeDto models.RecipeInputDto` holds when
`json.Decoder.Decode` fails on a malformed body without assigning any field. -/
def RecipeInputDto.zero : RecipeInputDto :=
  { name := "", url := "", categoryId := 0, description := "", longDescription := "", ingedientIds := [] }

/-- The zero value of models.Ingedient. -/
def Ingedient.zero : Ingedient :=
  { id := 0, name := "", amount := "", url := "", isAvailable := false }

/-- Relational store state: the three tables, the join relation
`ingredient_recipe(ingredient_id, recipe_id)` in insertion order, and the
store's id generators (serial columns, next value to hand out). -/
structure Db where
  recipes : List Recipe
  ingredients : List Ingedient
  categories : List Category
  ingredientRecipe : List (Int × Int)
  nextRecipeId : Int
  nextIngredientId : Int
deriving Repr, DecidableEq

/-- Store errors: the driver's no-rows signal (QueryRow.Scan on an empty
result) and a failed statement execution. -/
inductive DbError where
  | noRows
  | execFailure (stmt : String)
deriving Repr, DecidableEq

/-- The raw error text a handler writes into an error response. -/
def DbError.msg : DbError → String
  | .noRows => "sql: no rows in result set"
  | .execFailure s => "exec failed: " ++ s

/-- The loop body shared verbatim by the inline loop of `InsertRecipe`
(database.go, the for-range over ingredientIds) and by
`InsertRecipeIngredient`: execute
`INSERT INTO ingredient_recipe (ingredient_id, recipe_id) VALUES($1,$2)`
once per ingredient id in list order, returning the statement's error as
soon as one fails. `failJoin i r` is the store's verdict on inserting
join row `(i, r)`. -/
def insertJoinRows (failJoin : Int → Int → Bool) (recipeId : Int) :
    Db → List Int → Db × Option DbError
  | db, [] => (db, none)
  | db, ingredientId :: rest =>
    if failJoin ingredientId recipeId then
      (db, some (DbError.execFailure "insert ingredient_recipe"))
    else
      insertJoinRows failJoin recipeId
        { db with ingredientRecipe := db.ingredientRecipe ++ [(ingredientId, recipeId)] }
        rest

/-- service.InsertRecipeIngredient: one join-row insert per ingredient id in
list order, returning the first failure immediately (earlier rows stay). -/
def InsertRecipeIngredient (db : Db) (failJoin : Int → Int → Bool)
    (recipeId : Int) (ingredientIds : List Int) : Db × Option DbError :=
  insertJoinRows failJoin recipeId db ingredientIds

/-- service.InsertRecipe: insert the recipe row (RETURNING id scanned into
`id`; on failure return -1 and the error); then the inline for-range loop
inserting one join row per ingredient id (on failure return `id` and the
error); then the call `s.InsertRecipeIngredient(id, ingredientIds)` which
repeats exactly the same join inserts (on failure return `id` and the
error); finally return `id` and nil. `failRecipeRow` is the store's verdict
on the recipe-row insert. -/
def InsertRecipe (db : Db) (failRecipeRow : Bool) (failJoin : Int → Int → Bool)
    (name description longDescription url : String) (categoryId : Int)
    (ingredientIds : List Int) : Db × Int × Option DbError :=
  if failRecipeRow then
    (db, -1, some (DbError.execFailure "insert recipe"))
  else
    let id := db.nextRecipeId
    let db1 := { db with
      recipes := db.recipes ++
        [{ id := id, name := name, description := description,
           longDescription := longDescription, url := url, categoryId := categoryId }],
      nextRecipeId := id + 1 }
    match insertJoinRows failJoin id db1 ingredientIds with
    | (db2, some e) => (db2, id, some e)
    | (db2, none) =>
      match InsertRecipeIngredient db2 failJoin id ingredientIds with
      | (db3, some e) => (db3, id, some e)
      | (db3, none) => (db3, id, none)

/-- service.InsertIngredient: insert the ingredient row RETURNING id; on
failure return -1 and the error. -/
def InsertIngredient (db : Db) (failRow : Bool)
    (name amount url : String) (isAvailable : Bool) : Db × Int × Option DbError :=
  if failRow then
    (db, -1, some (DbError.execFailure "insert ingredient"))
  else
    let id := db.nextIngredientId
    ({ db with
        ingredients := db.ingredients ++
          [{ id := id, name := name, amount := amount, url := url, isAvailable := isAvailable }],
        nextIngredientId := id + 1 },
     id, none)

/-- service.UpdateRecipe: `UPDATE recipe SET name=$2, description=$3,
imageurl=$4 WHERE id=$1` via Exec; the row count is discarded, so a
zero-row match is not an error. `failUpdate` is the store's verdict on the
statement; a failed statement changes nothing (per-statement atomicity). -/
def UpdateRecipe (db : Db) (failUpdate : Bool) (id : Int)
    (name description url : String) : Db × Option DbError :=
  if failUpdate then
    (db, some (DbError.execFailure "update recipe"))
  else
    ({ db with recipes := db.recipes.map (fun r =>
        if r.id == id then
          { r with name := name, description := description, url := url }
        else r) },
     none)

/-- Whether recipe `r` survives the `JOIN category c ON r.category_id = c.id
WHERE c.name = $1` filter of GetRecipes (category ids are unique keys). -/
def recipeMatchesCategory (db : Db) (category : String) (r : Recipe) : Bool :=
  ((db.categories.find? (fun c => c.id == r.categoryId)).map
    (fun c => c.name == category)).getD false

/-- The Go accumulation `var recipes []models.Recipe` + `append` per row:
`none` is the nil slice (no row ever appended), `some l` a non-nil slice.
The distinction matters because `encoding/json` serializes a nil slice as
`null` and a non-nil slice as an array. -/
def buildSlice (rows : List Recipe) : Option (List Recipe) :=
  rows.foldl (fun s r => some (s.getD [] ++ [r])) none

/-- service.GetRecipes: empty category string selects all recipe rows,
otherwise the category-name join filter; rows are appended one by one into
an initially nil slice, and a query with zero matching rows returns that
nil slice with a nil error. -/
def GetRecipes (db : Db) (category : String) : Except DbError (Option (List Recipe)) :=
  let rows := if category == "" then db.recipes else db.recipes.filter (recipeMatchesCategory db category)
  .ok (buildSlice rows)

/-- service.GetRecipeWithIngredients: QueryRow on `recipe WHERE id = $1`
(Scan yields the driver's no-rows error when nothing matches, returned
unchanged with a nil record); then the ingredient query INNER JOINing
`ingredient_recipe` on `recipe_id = $1`, producing one output row per join
row in join-relation order. -/
def GetRecipeWithIngredients (db : Db) (recipeId : Int) :
    Except DbError RecipeWithIngredientsDto :=
  match db.recipes.find? (fun r => r.id == recipeId) with
  | none => .error DbError.noRows
  | some recipe =>
    let ingredients :=
      (db.ingredientRecipe.filter (fun ir => ir.2 == recipeId)).filterMap
        (fun ir => db.ingredients.find? (fun i => i.id == ir.1))
    .ok { recipe := recipe, ingredients := ingredients }

/-- JSON values, as `encoding/json` decodes them into `map[string]interface{}`
(an object's duplicate keys resolve to the last occurrence). -/
inductive Json where
  | null
  | bool (b : Bool)
  | num (n : Int)
  | str (s : String)
  | arr (elems : List Json)
  | obj (fields : List (String × Json))
deriving Repr

/-- Go map indexing `data[key]` after unmarshalling an object: the last
binding of the key wins; a missing key yields the nil interface value. -/
def jsonObjLookup (fields : List (String × Json)) (key : String) : Option Json :=
  fields.foldl (fun acc kv => if kv.1 == key then some kv.2 else acc) none

/-- An HTTP request body as the handlers see it: empty (zero bytes read),
non-empty bytes that fail to unmarshal into a JSON value, or non-empty
bytes decoding to the JSON value `j`. -/
inductive Body where
  | empty
  | malformed (msg : String)
  | json (j : Json)

/-- Result of `json.Decoder.Decode` into a typed struct: `ok` with the
decoded value, or `fail` on a malformed (syntactically invalid) body, which
returns the error before assigning any field, leaving the target at its
zero value. -/
inductive DecodeResult (α : Type) where
  | ok (a : α)
  | fail (msg : String)

/-- One write the handler performs on the ResponseWriter, in order:
`http.Error(w, msg, status)`, `w.WriteHeader(status)`, or a body write. -/
inductive WriteEvent where
  | httpError (status : Nat) (msg : String)
  | writeHeader (status : Nat)
  | writeBody (s : String)
deriving Repr, DecidableEq

/-- Modelled from the spec: the `internal/models` package is not in the
source tree, so the JSON struct tags (field names) of models.Recipe are
unknown; the per-recipe serialization uses the spec's §3 field list. No
theorem depends on this rendering. -/
def encodeRecipe (r : Recipe) : String :=
  "\x7b\x22id\x22:" ++ toString r.id ++
  ",\x22name\x22:\x22" ++ r.name ++
  "\x22,\x22description\x22:\x22" ++ r.description ++
  "\x22,\x22longDescription\x22:\x22" ++ r.longDescription ++
  "\x22,\x22url\x22:\x22" ++ r.url ++
  "\x22,\x22categoryId\x22:" ++ toString r.categoryId ++ "\x7d"

/-- What `json.NewEncoder(w).Encode(recipes)` writes for a `[]models.Recipe`
slice: a nil slice serializes as `null`, a non-nil one as a JSON array;
the stream encoder appends a newline. -/
def goEncodeRecipeSlice : Option (List Recipe) → String
  | none => "null\n"
  | some l => "[" ++ String.intercalate "," (l.map encodeRecipe) ++ "]\n"

/-- Outcome of a handler that either finishes its response writes or hits a
run-time fault (a failed type assertion panics the goroutine; no response
is produced by the handler code). -/
inductive GetRecipesOutcome where
  | response (status : Nat) (body : String)
  | panicked
deriving Repr, DecidableEq

/-- Server.getRecipesHandler: read the whole body; on non-empty bytes
unmarshal into `map[string]interface{}` (failing for any non-object value)
and then evaluate the unchecked assertion `data["category"].(string)` —
a missing key or a non-string value faults; an empty body means category
`""`. Then GetRecipes, 400 on a store error, else 200 with the encoded
slice. -/
def getRecipesHandler (db : Db) (body : Body) : GetRecipesOutcome :=
  let respond := fun (category : String) =>
    match GetRecipes db category with
    | .error e => GetRecipesOutcome.response 400 (DbError.msg e)
    | .ok slice => GetRecipesOutcome.response 200 (goEncodeRecipeSlice slice)
  match body with
  | .empty => respond ""
  | .malformed m => .response 400 m
  | .json j =>
    match j with
    | .obj fields =>
      match jsonObjLookup fields "category" with
      | some (.str s) => respond s
      | _ => .panicked
    | _ => .response 400 "json: cannot unmarshal value into Go value of type map"

/-- Server.insertRecipeHandler: decode the body (writing a 400 error on
failure WITHOUT returning), build models.Recipe from the dto, call
InsertRecipe (writing a 500 error on failure WITHOUT returning), then
unconditionally write the 201 header and the `Recipe id: <id>` body. -/
def insertRecipeHandler (db : Db) (failRecipeRow : Bool) (failJoin : Int → Int → Bool)
    (decoded : DecodeResult RecipeInputDto) : Db × List WriteEvent :=
  let step1 : List WriteEvent × RecipeInputDto :=
    match decoded with
    | .fail m => ([.httpError 400 m], RecipeInputDto.zero)
    | .ok dto => ([], dto)
  let dto := step1.2
  let res := InsertRecipe db failRecipeRow failJoin
    dto.name dto.description dto.longDescription dto.url dto.categoryId dto.ingedientIds
  let step2 : List WriteEvent :=
    match res.2.2 with
    | some e => [.httpError 500 (DbError.msg e)]
    | none => []
  (res.1, step1.1 ++ step2 ++ [.writeHeader 201, .writeBody ("Recipe id: " ++ toString res.2.1)])

/-- Server.insertIngredientHandler: same missing-return pattern as
insertRecipeHandler, decoding into models.Ingedient and calling
InsertIngredient. -/
def insertIngredientHandler (db : Db) (failRow : Bool)
    (decoded : DecodeResult Ingedient) : Db × List WriteEvent :=
  let step1 : List WriteEvent × Ingedient :=
    match decoded with
    | .fail m => ([.httpError 400 m], Ingedient.zero)
    | .ok ing => ([], ing)
  let ing := step1.2
  let res := InsertIngredient db failRow ing.name ing.amount ing.url ing.isAvailable
  let step2 : List WriteEvent :=
    match res.2.2 with
    | some e => [.httpError 500 (DbError.msg e)]
    | none => []
  (res.1, step1.1 ++ step2 ++ [.writeHeader 201, .writeBody ("Ingredient id: " ++ toString res.2.1)])

/-- strconv.Atoi: optional sign followed by at least one decimal digit;
anything else is a syntax error. -/
def atoi (s : String) : Except String Int :=
  let digitsVal := fun (digits : List Char) (sign : Int) =>
    if !digits.isEmpty && digits.all Char.isDigit then
      Except.ok (sign * digits.foldl (fun acc c => acc * 10 + ((c.toNat : Int) - 48)) 0)
    else
      Except.error ("strconv.Atoi: parsing " ++ s ++ ": invalid syntax")
  match s.toList with
  | [] => .error ("strconv.Atoi: parsing " ++ s ++ ": invalid syntax")
  | c :: rest =>
    if c = '-' then digitsVal rest (-1)
    else if c = '+' then digitsVal rest 1
    else digitsVal (c :: rest) 1

/-- Modelled from the spec: JSON rendering of the RecipeWithIngredients
response (models package absent from the source tree, field names per §3).
No theorem depends on this rendering. -/
def encodeDto (dto : RecipeWithIngredientsDto) : String :=
  "\x7b\x22recipe\x22:" ++ encodeRecipe dto.recipe ++
  ",\x22ingredients\x22:" ++ toString (dto.ingredients.map Ingedient.name) ++ "\x7d\n"

/-- Server.getRecipeWithIngredients: parse the `recipeId` path segment with
strconv.Atoi, 400 and return on failure (before any store call); else call
GetRecipeWithIngredients, 400 on its error, 200 with the JSON record on
success. The first component records which recipe ids the store was
queried for. -/
def getRecipeWithIngredients (db : Db) (pathValue : String) :
    List Int × List WriteEvent :=
  match atoi pathValue with
  | .error m => ([], [.httpError 400 m])
  | .ok recipeId =>
    match GetRecipeWithIngredients db recipeId with
    | .error e => ([recipeId], [.httpError 400 (DbError.msg e)])
    | .ok dto => ([recipeId], [.writeHeader 200, .writeBody (encodeDto dto)])

/-- The connection-pool statistics `sql.DB.Stats()` reports. -/
structure DbStats where
  openConnections : Int
  inUse : Int
  idle : Int
  waitCount : Int
  waitDuration : String
  maxIdleClosed : Int
  maxLifetimeClosed : Int
deriving Repr, DecidableEq

/-- The timeout (in seconds) Health passes to context.WithTimeout for the
ping: `1*time.Second`. -/
def healthTimeoutSeconds : Nat := 1

/-- How Health ends: either the stats map is returned to the caller, or
log.Fatalf terminates the process while the map holds the given entries
(the `return stats` after log.Fatalf is dead code). -/
inductive HealthOutcome where
  | returned (stats : List (String × String))
  | fatalExit (stats : List (String × String))
deriving Repr

/-- Go map assignment `m[k] = v`: replace the binding if the key exists,
else add it (mapSet keeps keys unique, so replacing the first binding is
replacing the binding). -/
def mapSet : List (String × String) → String → String → List (String × String)
  | [], k, v => [(k, v)]
  | kv :: rest, k, v => if kv.1 == k then (k, v) :: rest else kv :: mapSet rest k v

/-- Go map read `m[k]` (first binding; mapSet keeps keys unique). -/
def mapGet (m : List (String × String)) (k : String) : Option String :=
  (m.find? (fun kv => kv.1 == k)).map (fun kv => kv.2)

/-- service.Health: ping the store under a 1-second timeout. On ping
failure set status "down" and an error entry, then log.Fatalf (process
exit: the map is never returned). On success set status "up", a message,
the pool counters, and conditional load messages overriding "message". -/
def Health (pingOk : Bool) (pingErrMsg : String) (st : DbStats) : HealthOutcome :=
  if !pingOk then
    let stats := mapSet [] "status" "down"
    let stats := mapSet stats "error" ("db down: " ++ pingErrMsg)
    .fatalExit stats
  else
    let stats := mapSet [] "status" "up"
    let stats := mapSet stats "message" "It's healthy"
    let stats := mapSet stats "open_connections" (toString st.openConnections)
    let stats := mapSet stats "in_use" (toString st.inUse)
    let stats := mapSet stats "idle" (toString st.idle)
    let stats := mapSet stats "wait_count" (toString st.waitCount)
    let stats := mapSet stats "wait_duration" st.waitDuration
    let stats := mapSet stats "max_idle_closed" (toString st.maxIdleClosed)
    let stats := mapSet stats "max_lifetime_closed" (toString st.maxLifetimeClosed)
    let stats := if st.openConnections > 40 then
        mapSet stats "message" "The database is experiencing heavy load."
      else stats
    let stats := if st.waitCount > 1000 then
        mapSet stats "message" "The database has a high number of wait events, indicating potential bottlenecks."
      else stats
    let stats := if st.maxIdleClosed > st.openConnections / 2 then
        mapSet stats "message" "Many idle connections are being closed, consider revising the connection pool settings."
      else stats
    let stats := if st.maxLifetimeClosed > st.openConnections / 2 then
        mapSet stats "message" "Many connections are being closed due to max lifetime, consider increasing max lifetime or revising the connection usage pattern."
      else stats
    .returned stats

/-! ## Helper lemmas -/

theorem insertJoinRows_all_ok (failJoin : Int → Int → Bool) (recipeId : Int)
    (ids : List Int) : ∀ db : Db, (∀ i ∈ ids, failJoin i recipeId = false) →
    insertJoinRows failJoin recipeId db ids =
      ({ db with ingredientRecipe := db.ingredientRecipe ++ ids.map (fun i => (i, recipeId)) },
       none) := by
  induction ids with
  | nil => intro db _; simp [insertJoinRows]
  | cons i rest ih =>
    intro db h
    have hi : failJoin i recipeId = false := h i (List.mem_cons_self i rest)
    have ih2 := ih { db with ingredientRecipe := db.ingredientRecipe ++ [(i, recipeId)] }
      (fun x hx => h x (List.mem_cons_of_mem i hx))
    simp [insertJoinRows, hi, ih2, List.append_assoc]

theorem insertJoinRows_first_failure (failJoin : Int → Int → Bool) (recipeId : Int)
    (bad : Int) (post : List Int) (hbad : failJoin bad recipeId = true) (pre : List Int) :
    ∀ db : Db, (∀ i ∈ pre, failJoin i recipeId = false) →
    insertJoinRows failJoin recipeId db (pre ++ bad :: post) =
      ({ db with ingredientRecipe := db.ingredientRecipe ++ pre.map (fun i => (i, recipeId)) },
       some (DbError.execFailure "insert ingredient_recipe")) := by
  induction pre with
  | nil => intro db _; simp [insertJoinRows, hbad]
  | cons i rest ih =>
    intro db h
    have hi : failJoin i recipeId = false := h i (List.mem_cons_self i rest)
    have ih2 := ih { db with ingredientRecipe := db.ingredientRecipe ++ [(i, recipeId)] }
      (fun x hx => h x (List.mem_cons_of_mem i hx))
    simp [insertJoinRows, hi, ih2, List.append_assoc]

theorem buildSlice_from_some (l : List Recipe) : ∀ a : List Recipe,
    l.foldl (fun s r => some (s.getD [] ++ [r])) (some a) = some (a ++ l) := by
  induction l with
  | nil => intro a; simp
  | cons x xs ih => intro a; simpa [List.append_assoc] using ih (a ++ [x])

theorem buildSlice_eq (l : List Recipe) :
    buildSlice l = if l = [] then none else some l := by
  cases l with
  | nil => rfl
  | cons x xs => simpa [buildSlice, List.foldl] using buildSlice_from_some xs [x]

theorem mapGet_mapSet_self (m : List (String × String)) (k v : String) :
    mapGet (mapSet m k v) k = some v := by
  induction m with
  | nil => simp [mapSet, mapGet]
  | cons kv rest ih =>
    by_cases hk : kv.1 = k
    · simp [mapSet, mapGet, hk]
    · simp only [mapSet, mapGet] at ih ⊢
      simp [hk, ih]

theorem mapGet_mapSet_other (m : List (String × String)) (k v k2 : String)
    (h : k2 ≠ k) : mapGet (mapSet m k v) k2 = mapGet m k2 := by
  induction m with
  | nil => simp [mapSet, mapGet, Ne.symm h]
  | cons kv rest ih =>
    by_cases hk : kv.1 = k
    · by_cases hk2 : kv.1 = k2
      · exact absurd (hk2.symm.trans hk) h
      · simp [mapSet, mapGet, hk, hk2, Ne.symm h]
    · by_cases hk2 : kv.1 = k2
      · simp [mapSet, mapGet, hk, hk2, h]
      · simp only [mapSet, mapGet] at ih ⊢
        simp [hk, hk2, ih]

theorem mapGet_override_other {c : Prop} [Decidable c]
    {m : List (String × String)} {k v k2 : String} (h : k2 ≠ k) :
    mapGet (if c then mapSet m k v else m) k2 = mapGet m k2 := by
  by_cases hc : c
  · simp [hc, mapGet_mapSet_other m k v k2 h]
  · simp [hc]

theorem mapGet_override_isSome {c : Prop} [Decidable c]
    {m : List (String × String)} {k : String} (v : String)
    (h : ∃ s, mapGet m k = some s) :
    ∃ s, mapGet (if c then mapSet m k v else m) k = some s := by
  by_cases hc : c
  · exact ⟨v, by simp [hc, mapGet_mapSet_self]⟩
  · simpa [hc] using h

/-! ## Sample stores used by witnesses and counterexamples -/

/-- An empty store whose id generators start at 1. -/
def emptyDb : Db :=
  { recipes := [], ingredients := [], categories := [], ingredientRecipe := [],
    nextRecipeId := 1, nextIngredientId := 1 }

/-- A store holding two ingredients (ids 1 and 2) and one category (id 5). -/
def twoIngredientDb : Db :=
  { recipes := [],
    ingredients :=
      [{ id := 1, name := "Flour", amount := "200g", url := "", isAvailable := true },
       { id := 2, name := "Sugar", amount := "100g", url := "", isAvailable := true }],
    categories := [{ id := 5, name := "Dessert" }],
    ingredientRecipe := [], nextRecipeId := 1, nextIngredientId := 3 }

/-- A store with one recipe (id 1, category id 5) and one category named Main. -/
def oneRecipeDb : Db :=
  { recipes :=
      [{ id := 1, name := "Soup", description := "d", longDescription := "ld",
         url := "u", categoryId := 5 }],
    ingredients := [], categories := [{ id := 5, name := "Main" }],
    ingredientRecipe := [], nextRecipeId := 2, nextIngredientId := 1 }

/-! ## Claim theorems -/

/-- C1: the spec claims InsertRecipe leaves exactly ONE join row per
ingredient id and the round trip returns {i1, i2}. Evaluating the code at
the failing input: a store holding ingredients 1 and 2, InsertRecipe with
ingredient ids [1, 2] and every statement succeeding. The recipe row gets
id 1, but the join relation ends with TWO rows per ingredient id (the
inline loop inserts them, and the subsequent InsertRecipeIngredient call
inserts them all again), and the fetch returns each ingredient twice —
still {1, 2} as a set, but not one join row per id. -/
theorem c1_insertRecipe_join_rows_doubled :
    (InsertRecipe twoIngredientDb false (fun _ _ => false) "Cake" "d" "ld" "u" 5 [1, 2]).2.1 = 1 ∧
    (InsertRecipe twoIngredientDb false (fun _ _ => false) "Cake" "d" "ld" "u" 5 [1, 2]).2.2 = none ∧
    (InsertRecipe twoIngredientDb false (fun _ _ => false) "Cake" "d" "ld" "u" 5 [1, 2]).1.ingredientRecipe =
      [(1, 1), (2, 1), (1, 1), (2, 1)] ∧
    GetRecipeWithIngredients
        (InsertRecipe twoIngredientDb false (fun _ _ => false) "Cake" "d" "ld" "u" 5 [1, 2]).1 1 =
      .ok { recipe := { id := 1, name := "Cake", description := "d", longDescription := "ld",
                        url := "u", categoryId := 5 },
            ingredients :=
              [{ id := 1, name := "Flour", amount := "200g", url := "", isAvailable := true },
               { id := 2, name := "Sugar", amount := "100g", url := "", isAvailable := true },
               { id := 1, name := "Flour", amount := "200g", url := "", isAvailable := true },
               { id := 2, name := "Sugar", amount := "100g", url := "", isAvailable := true }] } :=
  ⟨rfl, rfl, rfl, rfl⟩

/-- C5: GetRecipeWithIngredients on an identifier matching no recipe row
returns the store's no-rows error and no record. -/
theorem c5_getRecipeWithIngredients_not_found (db : Db) (recipeId : Int)
    (h : ∀ r ∈ db.recipes, r.id ≠ recipeId) :
    GetRecipeWithIngredients db recipeId = .error DbError.noRows := by
  unfold GetRecipeWithIngredients
  have hfind : db.recipes.find? (fun r => r.id == recipeId) = none := by
    rw [List.find?_eq_none]
    intro r hr
    simpa using h r hr
  rw [hfind]

/-- Witness for C5 at a store whose only recipe has id 1, looked up as 42. -/
theorem c5_witness : GetRecipeWithIngredients oneRecipeDb 42 = .error DbError.noRows :=
  c5_getRecipeWithIngredients_not_found oneRecipeDb 42 (by decide)

/-- C6: a non-integer recipeId path segment makes the handler write a 400
error and return before any store call (the store-call list is empty). -/
theorem c6_non_integer_id_means_400_no_store_call (db : Db) (s m : String)
    (h : atoi s = .error m) :
    getRecipeWithIngredients db s = ([], [WriteEvent.httpError 400 m]) := by
  unfold getRecipeWithIngredients
  rw [h]

/-- Witness for C6 at the spec's concrete scenario GET /recipe/abc. -/
theorem c6_witness :
    getRecipeWithIngredients oneRecipeDb "abc" =
      ([], [WriteEvent.httpError 400 "strconv.Atoi: parsing abc: invalid syntax"]) :=
  c6_non_integer_id_means_400_no_store_call oneRecipeDb "abc" _ rfl

/-- C8: InsertRecipeIngredient inserts join rows one per ingredient id in
list order; when every statement succeeds all rows are appended in order,
and when the first failing id is reached the error is returned immediately
with exactly the rows of the earlier ids inserted and none for the failing
or later ids. -/
theorem c8_insertRecipeIngredient_prefix (db : Db) (failJoin : Int → Int → Bool)
    (recipeId : Int) :
    (∀ ids : List Int, (∀ i ∈ ids, failJoin i recipeId = false) →
      InsertRecipeIngredient db failJoin recipeId ids =
        ({ db with ingredientRecipe := db.ingredientRecipe ++ ids.map (fun i => (i, recipeId)) },
         none)) ∧
    (∀ (pre : List Int) (bad : Int) (post : List Int),
      (∀ i ∈ pre, failJoin i recipeId = false) → failJoin bad recipeId = true →
      InsertRecipeIngredient db failJoin recipeId (pre ++ bad :: post) =
        ({ db with ingredientRecipe := db.ingredientRecipe ++ pre.map (fun i => (i, recipeId)) },
         some (DbError.execFailure "insert ingredient_recipe"))) :=
  ⟨fun ids h => insertJoinRows_all_ok failJoin recipeId ids db h,
   fun pre bad post h hb => insertJoinRows_first_failure failJoin recipeId bad post hb pre db h⟩

/-- Witness for C8: all-success on [1, 2] and a failure at id 3 in
[1, 3, 4], against the empty store with recipe id 7. -/
theorem c8_witness :
    InsertRecipeIngredient emptyDb (fun i _ => i == 3) 7 [1, 2] =
      ({ emptyDb with ingredientRecipe := [(1, 7), (2, 7)] }, none) ∧
    InsertRecipeIngredient emptyDb (fun i _ => i == 3) 7 [1, 3, 4] =
      ({ emptyDb with ingredientRecipe := [(1, 7)] },
       some (DbError.execFailure "insert ingredient_recipe")) := by
  have h := c8_insertRecipeIngredient_prefix emptyDb (fun i _ => i == 3) 7
  exact ⟨h.1 [1, 2] (by decide), h.2 [1] 3 [4] (by decide) rfl⟩

/-- C2: for a non-empty GET /recipes body decoding to a JSON object whose
`category` field is absent or non-string, the handler reaches the unchecked
assertion `data["category"].(string)` and panics instead of responding. -/
theorem c2_getRecipesHandler_panics (db : Db) (fields : List (String × Json))
    (h : ∀ s, jsonObjLookup fields "category" ≠ some (Json.str s)) :
    getRecipesHandler db (Body.json (Json.obj fields)) = GetRecipesOutcome.panicked := by
  unfold getRecipesHandler
  cases hl : jsonObjLookup fields "category" with
  | none => simp [hl]
  | some j =>
    cases j with
    | str s => exact absurd hl (h s)
    | null => simp [hl]
    | bool b => simp [hl]
    | num n => simp [hl]
    | arr elems => simp [hl]
    | obj f2 => simp [hl]

/-- Witness for C2: a body whose category field holds a number. -/
theorem c2_witness :
    getRecipesHandler emptyDb (Body.json (Json.obj [("category", Json.num 7)])) =
      GetRecipesOutcome.panicked :=
  c2_getRecipesHandler_panics emptyDb [("category", Json.num 7)]
    (fun s h => by simp [jsonObjLookup] at h)

/-- C3: on a malformed POST body, insertRecipeHandler and
insertIngredientHandler write a 400 error but do not return: the insert is
still invoked on the zero-valued decoded input, and the 201 header and the
id body are written to the same response afterwards (plus a 500 error
in between when the insert itself fails). -/
theorem c3_insert_handlers_continue_after_bad_body
    (db : Db) (failRecipeRow failIngRow : Bool) (failJoin : Int → Int → Bool) (m : String) :
    insertRecipeHandler db failRecipeRow failJoin (DecodeResult.fail m) =
      ((InsertRecipe db failRecipeRow failJoin "" "" "" "" 0 []).1,
       WriteEvent.httpError 400 m ::
         ((match (InsertRecipe db failRecipeRow failJoin "" "" "" "" 0 []).2.2 with
           | some e => [WriteEvent.httpError 500 (DbError.msg e)]
           | none => []) ++
          [WriteEvent.writeHeader 201,
           WriteEvent.writeBody
             ("Recipe id: " ++ toString (InsertRecipe db failRecipeRow failJoin "" "" "" "" 0 []).2.1)])) ∧
    insertIngredientHandler db failIngRow (DecodeResult.fail m) =
      ((InsertIngredient db failIngRow "" "" "" false).1,
       WriteEvent.httpError 400 m ::
         ((match (InsertIngredient db failIngRow "" "" "" false).2.2 with
           | some e => [WriteEvent.httpError 500 (DbError.msg e)]
           | none => []) ++
          [WriteEvent.writeHeader 201,
           WriteEvent.writeBody
             ("Ingredient id: " ++ toString (InsertIngredient db failIngRow "" "" "" false).2.1)])) :=
  ⟨rfl, rfl⟩

/-- C4 (amended): a category with zero matching recipes yields an empty
(nil) list and no error from GetRecipes, and the handler responds 200 —
but the body is the Go encoding of the nil slice, `null` (plus the stream
encoder's newline), not the array `[]`; GetRecipes "" returns the full
recipe list of the store. -/
theorem c4_getRecipes_empty_result (db : Db) (name : String) (h0 : name ≠ "")
    (h : ∀ r ∈ db.recipes, recipeMatchesCategory db name r = false) :
    GetRecipes db name = .ok none ∧
    getRecipesHandler db (Body.json (Json.obj [("category", Json.str name)])) =
      GetRecipesOutcome.response 200 "null\n" ∧
    GetRecipes db "" = .ok (buildSlice db.recipes) ∧
    (buildSlice db.recipes).getD [] = db.recipes := by
  have hfilter : db.recipes.filter (recipeMatchesCategory db name) = [] := by
    rw [List.filter_eq_nil_iff]
    intro r hr
    simp [h r hr]
  have h1 : GetRecipes db name = .ok none := by
    unfold GetRecipes
    simp [h0, hfilter, buildSlice]
  refine ⟨h1, ?_, rfl, ?_⟩
  · unfold getRecipesHandler
    simp [jsonObjLookup, h1, goEncodeRecipeSlice]
  · rw [buildSlice_eq]
    split <;> simp_all

/-- Witness for C4 at a store whose only recipe is in category Main,
queried for category Dessert. -/
theorem c4_witness :
    GetRecipes oneRecipeDb "Dessert" = .ok none ∧
    getRecipesHandler oneRecipeDb (Body.json (Json.obj [("category", Json.str "Dessert")])) =
      GetRecipesOutcome.response 200 "null\n" :=
  ⟨(c4_getRecipes_empty_result oneRecipeDb "Dessert" (by decide) (by decide)).1,
   (c4_getRecipes_empty_result oneRecipeDb "Dessert" (by decide) (by decide)).2.1⟩

/-- Counterexample for C4 as stated: with no matching recipes the response
body is `null` (the Go nil slice serialization), not the claimed empty
JSON array `[]`. -/
theorem c4_counterexample :
    getRecipesHandler emptyDb (Body.json (Json.obj [("category", Json.str "Dessert")])) =
      GetRecipesOutcome.response 200 "null\n" ∧
    getRecipesHandler emptyDb (Body.json (Json.obj [("category", Json.str "Dessert")])) ≠
      GetRecipesOutcome.response 200 "[]" := by
  exact ⟨rfl, by decide⟩

/-- C7: Health pings the store under a 1-second timeout; on success it
returns a map with status "up", a message, and the connection-pool
counters; on failure it marks status "down" and terminates the process, so
the down map is never returned to the caller. -/
theorem c7_health_spec :
    healthTimeoutSeconds = 1 ∧
    (∀ (msg : String) (st : DbStats), ∃ m,
      Health true msg st = HealthOutcome.returned m ∧
      mapGet m "status" = some "up" ∧
      (∃ s, mapGet m "message" = some s) ∧
      mapGet m "open_connections" = some (toString st.openConnections) ∧
      mapGet m "in_use" = some (toString st.inUse) ∧
      mapGet m "idle" = some (toString st.idle) ∧
      mapGet m "wait_count" = some (toString st.waitCount)) ∧
    (∀ (msg : String) (st : DbStats), ∃ m,
      Health false msg st = HealthOutcome.fatalExit m ∧
      mapGet m "status" = some "down" ∧
      ∀ m2, Health false msg st ≠ HealthOutcome.returned m2) := by
  have hs : ("status" : String) ≠ "message" := by decide
  have ho : ("open_connections" : String) ≠ "message" := by decide
  have hu : ("in_use" : String) ≠ "message" := by decide
  have hi : ("idle" : String) ≠ "message" := by decide
  have hw : ("wait_count" : String) ≠ "message" := by decide
  refine ⟨rfl, ?_, ?_⟩
  · intro msg st
    refine ⟨_, rfl, ?_, ?_, ?_, ?_, ?_, ?_⟩
    · rw [mapGet_override_other hs, mapGet_override_other hs,
        mapGet_override_other hs, mapGet_override_other hs]
      rfl
    · exact mapGet_override_isSome _ (mapGet_override_isSome _
        (mapGet_override_isSome _ (mapGet_override_isSome _ ⟨_, rfl⟩)))
    · rw [mapGet_override_other ho, mapGet_override_other ho,
        mapGet_override_other ho, mapGet_override_other ho]
      rfl
    · rw [mapGet_override_other hu, mapGet_override_other hu,
        mapGet_override_other hu, mapGet_override_other hu]
      rfl
    · rw [mapGet_override_other hi, mapGet_override_other hi,
        mapGet_override_other hi, mapGet_override_other hi]
      rfl
    · rw [mapGet_override_other hw, mapGet_override_other hw,
        mapGet_override_other hw, mapGet_override_other hw]
      rfl
  · intro msg st
    exact ⟨_, rfl, rfl, fun m2 h => nomatch h⟩

/-- C9: UpdateRecipe (with the statement succeeding) returns no error,
leaves every other table and both id generators unchanged, rewrites the
recipe list pointwise so the matching row gets exactly the new name,
description and image URL (long description and category id untouched)
while every other row is unchanged, and is a no-op without error when no
row matches the identifier. -/
theorem c9_updateRecipe_frame (db : Db) (id : Int) (n d u : String) :
    (UpdateRecipe db false id n d u).2 = none ∧
    (UpdateRecipe db false id n d u).1.ingredients = db.ingredients ∧
    (UpdateRecipe db false id n d u).1.ingredientRecipe = db.ingredientRecipe ∧
    (UpdateRecipe db false id n d u).1.categories = db.categories ∧
    (UpdateRecipe db false id n d u).1.nextRecipeId = db.nextRecipeId ∧
    (UpdateRecipe db false id n d u).1.nextIngredientId = db.nextIngredientId ∧
    List.Forall₂ (fun r r2 =>
        (r.id = id → r2 = { r with name := n, description := d, url := u }) ∧
        (r.id ≠ id → r2 = r))
      db.recipes (UpdateRecipe db false id n d u).1.recipes ∧
    ((∀ r ∈ db.recipes, r.id ≠ id) → (UpdateRecipe db false id n d u).1 = db) := by
  refine ⟨rfl, rfl, rfl, rfl, rfl, rfl, ?_, ?_⟩
  · show List.Forall₂ _ db.recipes (db.recipes.map _)
    rw [List.forall₂_map_right_iff, List.forall₂_same]
    intro r _
    constructor
    · intro hid; simp [hid]
    · intro hid; simp [hid]
  · intro h
    show { db with recipes := db.recipes.map _ } = db
    have hmap : db.recipes.map
        (fun r => if r.id == id then { r with name := n, description := d, url := u } else r) =
        db.recipes := by
      calc db.recipes.map
            (fun r => if r.id == id then { r with name := n, description := d, url := u } else r)
          = db.recipes.map (fun r => r) :=
            List.map_congr_left (fun r hr => by simp [h r hr])
        _ = db.recipes := List.map_id' db.recipes
    rw [hmap]

/-- Witness for C9: updating a non-existent id 9 leaves the store
unchanged. -/
theorem c9_witness : (UpdateRecipe oneRecipeDb false 9 "n" "d" "u").1 = oneRecipeDb :=
  (c9_updateRecipe_frame oneRecipeDb 9 "n" "d" "u").2.2.2.2.2.2.2 (by decide)

/-- C10: when the initial row insert fails, InsertRecipe and
InsertIngredient return -1 together with the error; when the recipe row
succeeded (receiving the store's next id, positive for a positive
generator) and a join-row insert then fails, InsertRecipe instead returns
that already-generated identifier together with the error. -/
theorem c10_insert_failure_identifiers (db : Db) (failJoin : Int → Int → Bool)
    (n d ld u am : String) (cid : Int) (av : Bool) (hpos : 0 < db.nextRecipeId) :
    (∀ ids : List Int, InsertRecipe db true failJoin n d ld u cid ids =
      (db, -1, some (DbError.execFailure "insert recipe"))) ∧
    InsertIngredient db true n am u av =
      (db, -1, some (DbError.execFailure "insert ingredient")) ∧
    (∀ (pre : List Int) (bad : Int) (post : List Int),
      (∀ i ∈ pre, failJoin i db.nextRecipeId = false) →
      failJoin bad db.nextRecipeId = true →
      ∃ db2, InsertRecipe db false failJoin n d ld u cid (pre ++ bad :: post) =
        (db2, db.nextRecipeId, some (DbError.execFailure "insert ingredient_recipe")) ∧
        0 < db.nextRecipeId) := by
  refine ⟨fun ids => rfl, rfl, ?_⟩
  intro pre bad post h hb
  have hloop := insertJoinRows_first_failure failJoin db.nextRecipeId bad post hb pre
    { db with
        recipes := db.recipes ++
          [{ id := db.nextRecipeId, name := n, description := d,
             longDescription := ld, url := u, categoryId := cid }],
        nextRecipeId := db.nextRecipeId + 1 } h
  exact ⟨_, by unfold InsertRecipe; rw [if_neg (by simp)]; dsimp only; rw [hloop], hpos⟩

/-- Witness for C10: against the empty store (next recipe id 1), a failed
recipe-row insert returns -1, a failed ingredient insert returns -1, and
a join failure at id 3 after a successful row insert returns id 1 with
the error. -/
theorem c10_witness :
    InsertRecipe emptyDb true (fun _ _ => false) "n" "d" "ld" "u" 5 [1] =
      (emptyDb, -1, some (DbError.execFailure "insert recipe")) ∧
    InsertIngredient emptyDb true "n" "a" "u" true =
      (emptyDb, -1, some (DbError.execFailure "insert ingredient")) ∧
    ∃ db2, InsertRecipe emptyDb false (fun i _ => i == 3) "n" "d" "ld" "u" 5 [1, 3, 4] =
      (db2, 1, some (DbError.execFailure "insert ingredient_recipe")) ∧ (0 : Int) < 1 := by
  refine ⟨?_, ?_, ?_⟩
  · exact (c10_insert_failure_identifiers emptyDb (fun _ _ => false) "n" "d" "ld" "u" "a" 5 true
      (by decide)).1 [1]
  · exact (c10_insert_failure_identifiers emptyDb (fun _ _ => false) "n" "d" "ld" "u" "a" 5 true
      (by decide)).2.1
  · exact (c10_insert_failure_identifiers emptyDb (fun i _ => i == 3) "n" "d" "ld" "u" "a" 5 true
      (by decide)).2.2 [1] 3 [4] (by decide) rfl

end GastroGalaxy
